import Mathlib

/-!
Verification of the team-six-sentiment-analyzer repository.

The repository contains three near-duplicate Python scripts:
  * `src/main.py` — the "continuous score" pipeline: tokenize with nltk
    `word_tokenize`, count positive/negative lexicon hits, score
    `(positive_cnt - negative_cnt) / word_cnt`, aggregate a mean per ticker
    over the pdf documents of a zip archive, rank with pandas.
  * `SA#2.py` — the "categorical label" variant: whitespace tokenization,
    six lexicon categories, a label derived from the counts, a per-file
    ratio report.
  * `SA#2_directory_read.py` — a variant whose `process_zip` extracts the
    archive and immediately removes the extraction directory without
    scoring anything.

The definitions below are shallow embeddings of those scripts. External
collaborators (nltk tokenization, pdf text extraction) are modelled as
parameters: the tokenizer as a `String → List String` argument, and the
extractor's outcome as an `Option String` carried by each document.
Python exceptions are modelled with `Except PyError`; a Python run that
raises is an `Except.error` value. Real division is modelled over `ℚ`.
-/

namespace SentimentAnalyzer

/-- Exceptions the scripts can raise, plus the two error classes that the
specification names (`EmptyDocumentError`, `NoScorableDocumentsError`);
the latter two do not occur anywhere in the code, they are present only so
that claims about them can be stated and compared with what the code
actually raises. -/
inductive PyError where
  | zeroDivisionError
  | extractionError
  | emptyDocumentError
  | noScorableDocumentsError
  deriving DecidableEq, Repr

instance {ε α : Type _} [DecidableEq ε] [DecidableEq α] : DecidableEq (Except ε α) := fun a b =>
  match a, b with
  | .error e, .error f =>
      if h : e = f then .isTrue (by rw [h])
      else .isFalse (fun hc => h (Except.error.inj hc))
  | .error _, .ok _ => .isFalse (fun hc => Except.noConfusion hc)
  | .ok _, .error _ => .isFalse (fun hc => Except.noConfusion hc)
  | .ok a, .ok b =>
      if h : a = b then .isTrue (by rw [h])
      else .isFalse (fun hc => h (Except.ok.inj hc))

/-- Model of Python `str.lower()`: lowercase every character. -/
def pyLower (s : String) : String := String.mk (s.data.map Char.toLower)

/-- Helper for `pySplit`: walk the characters, accumulating the current
word (reversed) and emitting it at each whitespace boundary. -/
def splitWSAux : List Char → List Char → List String
  | [], acc => if acc.isEmpty then [] else [String.mk acc.reverse]
  | c :: cs, acc =>
    if c.isWhitespace then
      (if acc.isEmpty then splitWSAux cs [] else String.mk acc.reverse :: splitWSAux cs [])
    else splitWSAux cs (c :: acc)

/-- Model of Python `str.split()` with no argument: split on runs of
whitespace and drop empty pieces. Used by the `SA#2*` variants. -/
def pySplit (s : String) : List String := splitWSAux s.data []

/-- Model of Python `str.strip()`: drop leading and trailing whitespace. -/
def pyStrip (s : String) : String :=
  String.mk (((s.data.dropWhile Char.isWhitespace).reverse.dropWhile Char.isWhitespace).reverse)

/-- Model of Python `str.endswith(sfx)`. -/
def pyEndsWith (s sfx : String) : Bool := sfx.data.isSuffixOf s.data

/-- Embedding of `read_sentiment_files` (identical in all three scripts):
each line of the file is trimmed and lowercased; the result is a set,
modelled as the deduplicated list of normalized words. -/
def read_sentiment_files (lines : List String) : List String :=
  (lines.map (fun w => pyLower (pyStrip w))).dedup

/-- Configuration of the `src/main.py` pipeline: the external nltk
`word_tokenize` collaborator, the stopword list, the
`global_exclude_stop_words` flag, and the two loaded lexicon sets. -/
structure Config where
  word_tokenize : String → List String
  stop_words : List String
  exclude_stop_words : Bool
  positive_words : List String
  negative_words : List String

/-- Embedding of `tokenize_text` from `src/main.py`: lowercase the whole
text, tokenize with the external tokenizer, and filter stopwords when the
flag is set. -/
def tokenize_text (cfg : Config) (document_text : String) : List String :=
  let corpus := pyLower document_text
  let tokens := cfg.word_tokenize corpus
  if !cfg.exclude_stop_words then tokens
  else tokens.filter (fun t => !cfg.stop_words.contains t)

/-- Embedding of `analyze_sentiment` from `src/main.py`: tokenize, count
positive and negative hits, and return `(positive_cnt - negative_cnt) /
word_cnt`. Python raises `ZeroDivisionError` at the division when
`word_cnt == 0`; here that is the `Except.error` branch. -/
def analyze_sentiment (cfg : Config) (document_text : String) : Except PyError ℚ :=
  let words := tokenize_text cfg document_text
  let word_cnt := words.length
  let positive_cnt := words.countP (fun w => cfg.positive_words.contains w)
  let negative_cnt := words.countP (fun w => cfg.negative_words.contains w)
  if word_cnt = 0 then .error .zeroDivisionError
  else .ok (((positive_cnt : ℚ) - (negative_cnt : ℚ)) / (word_cnt : ℚ))

/-- One pdf document inside a ticker's zip archive: its file name and the
outcome of the external pdf text extractor on it (`none` models the
extractor raising). -/
structure PdfFile where
  name : String
  extract_result : Option String
  deriving DecidableEq, Repr

/-- Embedding of `extract_text_from_pdf`: returns the extractor's text, or
propagates the extractor's exception. -/
def extract_text_from_pdf (f : PdfFile) : Except PyError String :=
  match f.extract_result with
  | some t => .ok t
  | none => .error .extractionError

/-- The body of the `process_zip` loop in `src/main.py` for one pdf file:
extract the text, then score it; either step's exception propagates. -/
def score_document (cfg : Config) (f : PdfFile) : Except PyError ℚ :=
  match extract_text_from_pdf f with
  | .error e => .error e
  | .ok text => analyze_sentiment cfg text

/-- Python `dict` assignment `d[k] = v` on an insertion-ordered mapping
modelled as an association list: overwrite in place if the key exists,
otherwise append. -/
def dictSet (d : List (String × ℚ)) (k : String) (v : ℚ) : List (String × ℚ) :=
  if d.any (fun p => p.1 = k) then d.map (fun p => if p.1 = k then (k, v) else p)
  else d ++ [(k, v)]

/-- The `for pdf_file in os.listdir(...)` loop of `process_zip` in
`src/main.py`, over the already-filtered `.pdf` files: score each document
in order, appending to `score_list`; the first exception aborts the loop
(and with it the whole `process_zip` call), discarding the partial list. -/
def score_documents (cfg : Config) : List PdfFile → Except PyError (List ℚ)
  | [] => .ok []
  | f :: fs =>
      match score_document cfg f with
      | .error e => .error e
      | .ok s =>
          match score_documents cfg fs with
          | .error e => .error e
          | .ok rest => .ok (s :: rest)

/-- Embedding of `process_zip` from `src/main.py`: iterate over the
`.pdf` members of the archive, extract and score each one in order
(the first exception aborts the whole call, leaving `scores` untouched),
then unconditionally assign
`scores[stock_symbol] = sum(score_list) / len(score_list)` — a
`ZeroDivisionError` when no document was scored. -/
def process_zip (cfg : Config) (stock_symbol : String) (files : List PdfFile)
    (scores : List (String × ℚ)) : Except PyError (List (String × ℚ)) :=
  let pdfs := files.filter (fun f => pyEndsWith f.name ".pdf")
  match score_documents cfg pdfs with
  | .error e => .error e
  | .ok score_list =>
      if score_list.length = 0 then .error .zeroDivisionError
      else .ok (dictSet scores stock_symbol (score_list.sum / (score_list.length : ℚ)))

/-- Embedding of the `__main__` loop of `src/main.py`: starting from the
given score dictionary (the script starts from the empty one), call
`process_zip` for each zip archive in turn (each entry is a stock symbol
with the documents of its archive). There is no exception handler in the
script, so the first exception aborts the whole run. -/
def runMainFrom (cfg : Config) (scores : List (String × ℚ)) :
    List (String × List PdfFile) → Except PyError (List (String × ℚ))
  | [] => .ok scores
  | entry :: rest =>
      match process_zip cfg entry.1 entry.2 scores with
      | .error e => .error e
      | .ok scores2 => runMainFrom cfg scores2 rest

/-- The `__main__` run of `src/main.py`, from the empty score dictionary. -/
def runMain (cfg : Config) (zip_entries : List (String × List PdfFile)) :
    Except PyError (List (String × ℚ)) :=
  runMainFrom cfg [] zip_entries

/-- A concrete whitespace tokenizer used to instantiate the external
`word_tokenize` collaborator in witnesses. -/
def wsTokenize (s : String) : List String := pySplit s

/-- A concrete configuration for witnesses: no stopword exclusion (as in
the script, where `global_exclude_stop_words = False`), positive lexicon
`{"good"}`, negative lexicon `{"bad"}`. -/
def cfg0 : Config :=
  { word_tokenize := wsTokenize
    stop_words := []
    exclude_stop_words := false
    positive_words := ["good"]
    negative_words := ["bad"] }

/-- Result of `analyze_sentiment` in `SA#2_directory_read.py`; the script
returns the same five components as a tuple. -/
structure DRResult where
  sentiment : String
  positive_cnt : Nat
  negative_cnt : Nat
  word_cnt : Nat
  sentiment_score : ℚ
  deriving DecidableEq, Repr

/-- Embedding of `analyze_sentiment` from `SA#2_directory_read.py`:
tokenize with `document_text.lower().split()`, count positive and negative
hits, pick the label by majority, and compute
`(positive_cnt - negative_cnt) / word_cnt` — Python raises
`ZeroDivisionError` at that division when `word_cnt == 0`. -/
def dr_analyze_sentiment (positive_words negative_words : List String)
    (document_text : String) : Except PyError DRResult :=
  let words := pySplit (pyLower document_text)
  let word_cnt := words.length
  let positive_cnt := words.countP (fun w => positive_words.contains w)
  let negative_cnt := words.countP (fun w => negative_words.contains w)
  let document_sentiment :=
    if positive_cnt > negative_cnt then "Positive"
    else if negative_cnt > positive_cnt then "Negative"
    else "Neutral"
  if word_cnt = 0 then .error .zeroDivisionError
  else .ok
    { sentiment := document_sentiment
      positive_cnt := positive_cnt
      negative_cnt := negative_cnt
      word_cnt := word_cnt
      sentiment_score := ((positive_cnt : ℚ) - (negative_cnt : ℚ)) / (word_cnt : ℚ) }

/-- The six lexicon sets loaded by `SA#2.py`. -/
structure SA2Lexicon where
  positive_words : List String
  negative_words : List String
  modal_weak : List String
  modal_strong : List String
  litigious : List String
  uncertainty : List String

/-- Result of `analyze_sentiment` in `SA#2.py`; the script returns the
same seven components as a tuple. -/
structure SA2Result where
  sentiment : String
  positive_cnt : Nat
  negative_cnt : Nat
  strong_cnt : Nat
  weak_cnt : Nat
  litigious_cnt : Nat
  uncertainty_cnt : Nat
  deriving DecidableEq, Repr

/-- The label logic of `analyze_sentiment` in `SA#2.py`, as written:
`document_sentiment` starts as `"Neutral"`; the positive/negative branch
only ever sets `"Strong Positive"` or `"Strong Negative"` (a positive or
negative majority without the strong/weak condition leaves the default);
then a litigious hit overrides the result, and an uncertainty hit
overrides that in turn. -/
def sa2_label (positive_cnt negative_cnt strong_cnt weak_cnt litigious_cnt
    uncertainty_cnt : Nat) : String :=
  let s1 :=
    if positive_cnt > negative_cnt then
      (if strong_cnt > weak_cnt then "Strong Positive" else "Neutral")
    else if negative_cnt > positive_cnt then
      (if weak_cnt > strong_cnt then "Strong Negative" else "Neutral")
    else "Neutral"
  let s2 := if litigious_cnt ≥ 1 then "Check the legal background on this" else s1
  if uncertainty_cnt ≥ 1 then "Seems to be some uncertainty in this stock" else s2

/-- Embedding of `analyze_sentiment` from `SA#2.py`: whitespace
tokenization via `document_text.lower().split()`, one membership count per
category, and the label of `sa2_label`. -/
def sa2_analyze_sentiment (lex : SA2Lexicon) (document_text : String) : SA2Result :=
  let words := pySplit (pyLower document_text)
  let positive_cnt := words.countP (fun w => lex.positive_words.contains w)
  let negative_cnt := words.countP (fun w => lex.negative_words.contains w)
  let weak_cnt := words.countP (fun w => lex.modal_weak.contains w)
  let strong_cnt := words.countP (fun w => lex.modal_strong.contains w)
  let litigious_cnt := words.countP (fun w => lex.litigious.contains w)
  let uncertainty_cnt := words.countP (fun w => lex.uncertainty.contains w)
  { sentiment := sa2_label positive_cnt negative_cnt strong_cnt weak_cnt
      litigious_cnt uncertainty_cnt
    positive_cnt := positive_cnt
    negative_cnt := negative_cnt
    strong_cnt := strong_cnt
    weak_cnt := weak_cnt
    litigious_cnt := litigious_cnt
    uncertainty_cnt := uncertainty_cnt }

/-- The coercion `if weak_count == 0: weak_count = 1` that `process_zip`
of `SA#2.py` applies before printing the strong-to-weak ratio. -/
def sa2_weak_for_ratio (weak_cnt : Nat) : Nat :=
  if weak_cnt = 0 then 1 else weak_cnt

/-- The per-file report computed inside the `process_zip` loop of
`SA#2.py`: after the weak-count coercion, the script prints
`positive_count / negative_count` (with the raw negative count as
denominator — Python raises `ZeroDivisionError` when it is zero) and then
`strong_count / weak_count` (with the coerced denominator). The value is
the pair of ratios the report prints. -/
def sa2_report_file (lex : SA2Lexicon) (document_text : String) :
    Except PyError (ℚ × ℚ) :=
  let r := sa2_analyze_sentiment lex document_text
  let weak_count := sa2_weak_for_ratio r.weak_cnt
  if r.negative_cnt = 0 then .error .zeroDivisionError
  else .ok (((r.positive_cnt : ℚ) / (r.negative_cnt : ℚ)),
            ((r.strong_cnt : ℚ) / (weak_count : ℚ)))

/-- Value type of the score dictionary of `SA#2_directory_read.py` as the
report loop destructures it: `(positive_count, negative_count,
sentiment_score)`. -/
abbrev DRScore : Type := Nat × Nat × ℚ

/-- Disk state touched by `process_zip` of `SA#2_directory_read.py`:
the set of extraction directories currently present under the temporary
directory. -/
structure DirState where
  temp_dirs : List String
  deriving DecidableEq, Repr

/-- Embedding of `process_zip` from `SA#2_directory_read.py`: compute the
extraction path from the zip file name, `extractall` into it, then
immediately `shutil.rmtree` it. No document is opened, no score is
computed, and the `scores` dictionary is returned exactly as received. -/
def dr_process_zip (zip_file_name : String) (st : DirState)
    (scores : List (String × DRScore)) : DirState × List (String × DRScore) :=
  let extracted_path := zip_file_name
  let st1 : DirState := { temp_dirs := st.temp_dirs.insert extracted_path }
  let st2 : DirState := { temp_dirs := st1.temp_dirs.filter (fun d => d ≠ extracted_path) }
  (st2, scores)

/-- Embedding of the `__main__` loop of `SA#2_directory_read.py`: starting
from the empty `score_dict`, call `process_zip` on every `.zip` entry of
the data directory. -/
def dr_main (zip_files : List String) (st : DirState) :
    DirState × List (String × DRScore) :=
  zip_files.foldl
    (fun acc z =>
      if pyEndsWith (pyLower z) ".zip" then dr_process_zip z acc.1 acc.2 else acc)
    (st, [])

/-- The final report loop of `SA#2_directory_read.py`: one report line per
entry of `score_dict`. -/
def dr_report (scores : List (String × DRScore)) : List String :=
  scores.map (fun p => p.1)

/-- The label precedence exactly as the specification claims it, written
from the claim's words (not from the code), for comparison with
`sa2_label`: uncertainty, then litigious, then strong positive, then
strong negative, then plain positive, then plain negative, else neutral. -/
def claimed_label (positive_cnt negative_cnt strong_cnt weak_cnt litigious_cnt
    uncertainty_cnt : Nat) : String :=
  if uncertainty_cnt ≥ 1 then "uncertain"
  else if litigious_cnt ≥ 1 then "litigious-flag"
  else if positive_cnt > negative_cnt ∧ strong_cnt > weak_cnt then "strong_positive"
  else if negative_cnt > positive_cnt ∧ weak_cnt > strong_cnt then "strong_negative"
  else if positive_cnt > negative_cnt then "positive"
  else if negative_cnt > positive_cnt then "negative"
  else "neutral"

/-- The label precedence the code actually implements, written in the
claim's first-match-wins style with the code's literal label strings, for
the amended claim: uncertainty, then litigious, then strong positive, then
strong negative, else neutral — there are no plain positive or negative
labels. -/
def amended_label (positive_cnt negative_cnt strong_cnt weak_cnt litigious_cnt
    uncertainty_cnt : Nat) : String :=
  if uncertainty_cnt ≥ 1 then "Seems to be some uncertainty in this stock"
  else if litigious_cnt ≥ 1 then "Check the legal background on this"
  else if positive_cnt > negative_cnt ∧ strong_cnt > weak_cnt then "Strong Positive"
  else if negative_cnt > positive_cnt ∧ weak_cnt > strong_cnt then "Strong Negative"
  else "Neutral"

/-! Shared evaluation lemmas for concrete witnesses. -/

theorem analyze_good_eval : analyze_sentiment cfg0 "good" = .ok 1 := by
  have ht : tokenize_text cfg0 "good" = ["good"] := by decide
  have hp : List.countP (fun w => decide (w ∈ cfg0.positive_words)) ["good"] = 1 := by decide
  have hn : List.countP (fun w => decide (w ∈ cfg0.negative_words)) ["good"] = 0 := by decide
  simp [analyze_sentiment, ht, hp, hn]

theorem analyze_bad_eval : analyze_sentiment cfg0 "bad" = .ok (-1) := by
  have ht : tokenize_text cfg0 "bad" = ["bad"] := by decide
  have hp : List.countP (fun w => decide (w ∈ cfg0.positive_words)) ["bad"] = 0 := by decide
  have hn : List.countP (fun w => decide (w ∈ cfg0.negative_words)) ["bad"] = 1 := by decide
  simp [analyze_sentiment, ht, hp, hn]

/-! Claim C1. -/

/-- C1 counterexample: a ticker corpus with one successfully extracted
document (`a.pdf`, text `"good"`, score `1`) and one document whose
extraction fails (`b.pdf`). The claim demands the aggregate be the mean of
the successful documents, that is `Except.ok [("AAPL", 1)]`; the code
instead lets the extraction exception propagate, aborting the ticker's
aggregation with no aggregate at all. -/
theorem process_zip_failure_not_skipped :
    process_zip cfg0 "AAPL" [⟨"a.pdf", some "good"⟩, ⟨"b.pdf", none⟩] [] =
      .error .extractionError ∧
    (Except.error PyError.extractionError : Except PyError (List (String × ℚ))) ≠
      .ok [("AAPL", 1)] := by
  constructor
  · decide
  · intro h
    exact Except.noConfusion h

/-- C1 amended: when every `.pdf` document of the ticker extracts and
scores successfully (the score list of the loop is `Except.ok l`) and at
least one document was scored, `process_zip` stores the arithmetic mean of
all those documents' scores under the ticker's symbol. (A single failing
document makes `score_documents` an error instead, which `process_zip`
propagates, so failed documents are never merely skipped.) -/
theorem process_zip_mean_of_all_docs (cfg : Config) (sym : String)
    (files : List PdfFile) (scores : List (String × ℚ)) (l : List ℚ)
    (h : score_documents cfg (files.filter (fun f => pyEndsWith f.name ".pdf")) = .ok l)
    (hne : l ≠ []) :
    process_zip cfg sym files scores = .ok (dictSet scores sym (l.sum / (l.length : ℚ))) := by
  simp only [process_zip]
  rw [h]
  simp [List.length_eq_zero, hne]

/-- C1 witness: a ticker with two successfully scored documents, scores
`1` and `-1`; the stored aggregate is their mean `0`. -/
theorem process_zip_mean_of_all_docs_witness :
    process_zip cfg0 "AAPL" [⟨"a.pdf", some "good"⟩, ⟨"b.pdf", some "bad"⟩] [] =
      .ok [("AAPL", 0)] := by
  have hfilter : List.filter (fun f => pyEndsWith f.name ".pdf")
      [(⟨"a.pdf", some "good"⟩ : PdfFile), ⟨"b.pdf", some "bad"⟩] =
      [⟨"a.pdf", some "good"⟩, ⟨"b.pdf", some "bad"⟩] := by decide
  have h : score_documents cfg0 (List.filter (fun f => pyEndsWith f.name ".pdf")
      [(⟨"a.pdf", some "good"⟩ : PdfFile), ⟨"b.pdf", some "bad"⟩]) = .ok [1, -1] := by
    rw [hfilter]
    simp [score_documents, score_document, extract_text_from_pdf,
      analyze_good_eval, analyze_bad_eval]
  have hmean := process_zip_mean_of_all_docs cfg0 "AAPL"
    [⟨"a.pdf", some "good"⟩, ⟨"b.pdf", some "bad"⟩] [] [1, -1] h (by simp)
  rw [hmean]
  norm_num [dictSet]

/-! Claim C2. -/

/-- C2 counterexample: on an empty document, both scoring variants raise
Python's built-in `ZeroDivisionError` from the division, not the
`EmptyDocumentError` the claim names (no such error class exists anywhere
in the code). -/
theorem analyze_empty_error_class_counterexample :
    analyze_sentiment cfg0 "" = .error .zeroDivisionError ∧
    dr_analyze_sentiment ["good"] ["bad"] "" = .error .zeroDivisionError ∧
    analyze_sentiment cfg0 "" ≠ .error .emptyDocumentError ∧
    dr_analyze_sentiment ["good"] ["bad"] "" ≠ .error .emptyDocumentError := by decide

/-- C2 amended: scoring a document whose token sequence is empty fails, in
both scoring variants, by raising `ZeroDivisionError` at the division; no
numeric value is ever returned for such a document. -/
theorem analyze_empty_raises_zero_division (cfg : Config) (pw nw : List String)
    (a b : String) (h1 : tokenize_text cfg a = []) (h2 : pySplit (pyLower b) = []) :
    analyze_sentiment cfg a = .error .zeroDivisionError ∧
    dr_analyze_sentiment pw nw b = .error .zeroDivisionError := by
  constructor
  · simp [analyze_sentiment, h1]
  · simp [dr_analyze_sentiment, h2]

/-- C2 witness: the empty document has an empty token sequence in both
variants, and both scorings fail with `ZeroDivisionError`. -/
theorem analyze_empty_raises_zero_division_witness :
    analyze_sentiment cfg0 "" = .error .zeroDivisionError ∧
    dr_analyze_sentiment ["good"] ["bad"] "" = .error .zeroDivisionError :=
  analyze_empty_raises_zero_division cfg0 ["good"] ["bad"] "" ""
    (by decide) (by decide)

/-! Claim C3. -/

/-- C3 counterexample: at counts `positive=1`, all others `0`, the claimed
precedence yields the plain label `"positive"` (its rule 5), while the
code's label logic yields `"Neutral"` — exactly the label it yields when
every count is zero. The code has no plain positive or negative labels at
all, so the claimed precedence is not the one implemented. -/
theorem sa2_label_counterexample :
    sa2_label 1 0 0 0 0 0 = "Neutral" ∧
    claimed_label 1 0 0 0 0 0 = "positive" ∧
    sa2_label 1 0 0 0 0 0 = sa2_label 0 0 0 0 0 0 ∧
    claimed_label 1 0 0 0 0 0 ≠ claimed_label 0 0 0 0 0 0 := by decide

theorem sa2_label_eq_amended (p n s w l u : Nat) :
    sa2_label p n s w l u = amended_label p n s w l u := by
  simp only [sa2_label, amended_label]
  split_ifs <;> first | rfl | omega

/-- C3 amended: the label is chosen by this fixed precedence, first match
wins: `uncertainty_count >= 1` gives the uncertainty label; else
`litigious_count >= 1` gives the litigious label; else
`positive_count > negative_count` and `strong_count > weak_count` gives
`"Strong Positive"`; else `negative_count > positive_count` and
`weak_count > strong_count` gives `"Strong Negative"`; else `"Neutral"`.
There are no plain positive or negative labels. -/
theorem sa2_sentiment_follows_amended_precedence (lex : SA2Lexicon) (text : String) :
    (sa2_analyze_sentiment lex text).sentiment =
      amended_label (sa2_analyze_sentiment lex text).positive_cnt
        (sa2_analyze_sentiment lex text).negative_cnt
        (sa2_analyze_sentiment lex text).strong_cnt
        (sa2_analyze_sentiment lex text).weak_cnt
        (sa2_analyze_sentiment lex text).litigious_cnt
        (sa2_analyze_sentiment lex text).uncertainty_cnt := by
  simp only [sa2_analyze_sentiment]
  exact sa2_label_eq_amended _ _ _ _ _ _

/-! Claim C4. -/

/-- C4 counterexample: a run whose first ticker's only document fails
extraction crashes with the extraction exception — the second, healthy
ticker is never processed and no ranked output exists. A ticker with no
scored documents makes `process_zip` raise `ZeroDivisionError` at
`sum(score_list) / len(score_list)`. Neither error is the
`NoScorableDocumentsError` the claim names. -/
theorem run_crash_counterexample :
    runMain cfg0 [("BAD1", [⟨"x.pdf", none⟩]), ("GOOD", [⟨"a.pdf", some "good"⟩])] =
      .error .extractionError ∧
    process_zip cfg0 "EMPTY" [] [] = .error .zeroDivisionError ∧
    (Except.error PyError.extractionError : Except PyError (List (String × ℚ))) ≠
      .error .noScorableDocumentsError := by decide

theorem runMainFrom_append (cfg : Config) (l1 l2 : List (String × List PdfFile)) :
    ∀ scores, runMainFrom cfg scores (l1 ++ l2) =
      match runMainFrom cfg scores l1 with
      | .error e => .error e
      | .ok s2 => runMainFrom cfg s2 l2 := by
  induction l1 with
  | nil => intro s; rfl
  | cons x xs ih =>
      intro s
      simp only [List.cons_append, runMainFrom]
      cases process_zip cfg x.1 x.2 s with
      | error e => rfl
      | ok s2 => exact ih s2

/-- C4 amended: when some ticker's `process_zip` call raises (as it does
whenever every document fails extraction, and also when the ticker has no
scored documents at all), the exception propagates and aborts the entire
run: the run's result is that error, not a ranking that omits the ticker,
and no skip report exists. -/
theorem run_aborts_on_ticker_failure (cfg : Config) (scores : List (String × ℚ))
    (pre post : List (String × List PdfFile)) (sym : String) (files : List PdfFile)
    (e : PyError) (hpre : runMainFrom cfg [] pre = .ok scores)
    (hfail : process_zip cfg sym files scores = .error e) :
    runMain cfg (pre ++ (sym, files) :: post) = .error e := by
  unfold runMain
  rw [runMainFrom_append cfg pre ((sym, files) :: post) [], hpre]
  simp only [runMainFrom, hfail]

/-- C4 witness: a healthy first ticker, then a ticker whose only document
fails extraction; the whole run aborts with the extraction error. -/
theorem run_aborts_on_ticker_failure_witness :
    runMain cfg0 [("GOOD", [⟨"a.pdf", some "good"⟩]), ("BAD1", [⟨"x.pdf", none⟩])] =
      .error .extractionError := by
  have hfilter : List.filter (fun f => pyEndsWith f.name ".pdf")
      [(⟨"a.pdf", some "good"⟩ : PdfFile)] = [⟨"a.pdf", some "good"⟩] := by decide
  have hpre : runMainFrom cfg0 [] [("GOOD", [⟨"a.pdf", some "good"⟩])] =
      .ok [("GOOD", 1)] := by
    simp [runMainFrom, process_zip, hfilter, score_documents, score_document,
      extract_text_from_pdf, analyze_good_eval, dictSet]
  have hfail : process_zip cfg0 "BAD1" [⟨"x.pdf", none⟩] [("GOOD", 1)] =
      .error .extractionError := by decide
  exact run_aborts_on_ticker_failure cfg0 [("GOOD", 1)]
    [("GOOD", [⟨"a.pdf", some "good"⟩])] [] "BAD1" [⟨"x.pdf", none⟩]
    .extractionError hpre hfail

/-! Claim C6. -/

/-- C6: for a non-empty token sequence, both scoring variants return
exactly `(positive_count - negative_count) / total_token_count`, where the
counts are the membership counts of the tokens in the positive and
negative lexicon sets and the denominator is the total token count. -/
theorem continuous_score_formula (cfg : Config) (pw nw : List String) (a b : String)
    (h1 : tokenize_text cfg a ≠ []) (h2 : pySplit (pyLower b) ≠ []) :
    analyze_sentiment cfg a =
      .ok ((((tokenize_text cfg a).countP (fun w => cfg.positive_words.contains w) : ℚ) -
            ((tokenize_text cfg a).countP (fun w => cfg.negative_words.contains w) : ℚ)) /
           ((tokenize_text cfg a).length : ℚ)) ∧
    (dr_analyze_sentiment pw nw b).map (fun r => r.sentiment_score) =
      .ok ((((pySplit (pyLower b)).countP (fun w => pw.contains w) : ℚ) -
            ((pySplit (pyLower b)).countP (fun w => nw.contains w) : ℚ)) /
           ((pySplit (pyLower b)).length : ℚ)) := by
  constructor
  · simp [analyze_sentiment, List.length_eq_zero, h1]
  · simp [dr_analyze_sentiment, List.length_eq_zero, h2, Except.map]

/-- C6 witness: `"good"` scores `(1 - 0) / 1 = 1` in the main pipeline and
`"bad"` scores `(0 - 1) / 1 = -1` in the directory-read variant. -/
theorem continuous_score_formula_witness :
    analyze_sentiment cfg0 "good" = .ok 1 ∧
    (dr_analyze_sentiment ["good"] ["bad"] "bad").map (fun r => r.sentiment_score) =
      .ok (-1) := by
  have h := continuous_score_formula cfg0 ["good"] ["bad"] "good" "bad"
    (by decide) (by decide)
  obtain ⟨hmain, hdr⟩ := h
  constructor
  · rw [hmain]
    have ht : tokenize_text cfg0 "good" = ["good"] := by decide
    rw [ht]
    have hp : List.countP (fun w => cfg0.positive_words.contains w) ["good"] = 1 := by decide
    have hn : List.countP (fun w => cfg0.negative_words.contains w) ["good"] = 0 := by decide
    rw [hp, hn]
    norm_num
  · rw [hdr]
    have ht : pySplit (pyLower "bad") = ["bad"] := by decide
    rw [ht]
    have hp : List.countP (fun w => List.contains ["good"] w) ["bad"] = 0 := by decide
    have hn : List.countP (fun w => List.contains ["bad"] w) ["bad"] = 1 := by decide
    rw [hp, hn]
    norm_num

/-! Claim C7. -/

/-- C7: every per-category count is a natural number (hence a non-negative
integer, stated here through the cast to `ℤ`) and is bounded by the length
of the document's token sequence; this holds for all six categories of the
`SA#2.py` scorer and for the two counts of the `src/main.py` scorer. -/
theorem category_counts_nonneg_le_length (lex : SA2Lexicon) (cfg : Config)
    (a b : String) :
    ((sa2_analyze_sentiment lex b).positive_cnt ≤ (pySplit (pyLower b)).length ∧
     (sa2_analyze_sentiment lex b).negative_cnt ≤ (pySplit (pyLower b)).length ∧
     (sa2_analyze_sentiment lex b).strong_cnt ≤ (pySplit (pyLower b)).length ∧
     (sa2_analyze_sentiment lex b).weak_cnt ≤ (pySplit (pyLower b)).length ∧
     (sa2_analyze_sentiment lex b).litigious_cnt ≤ (pySplit (pyLower b)).length ∧
     (sa2_analyze_sentiment lex b).uncertainty_cnt ≤ (pySplit (pyLower b)).length) ∧
    ((0 : ℤ) ≤ ((sa2_analyze_sentiment lex b).positive_cnt : ℤ) ∧
     (0 : ℤ) ≤ ((sa2_analyze_sentiment lex b).negative_cnt : ℤ) ∧
     (0 : ℤ) ≤ ((sa2_analyze_sentiment lex b).strong_cnt : ℤ) ∧
     (0 : ℤ) ≤ ((sa2_analyze_sentiment lex b).weak_cnt : ℤ) ∧
     (0 : ℤ) ≤ ((sa2_analyze_sentiment lex b).litigious_cnt : ℤ) ∧
     (0 : ℤ) ≤ ((sa2_analyze_sentiment lex b).uncertainty_cnt : ℤ)) ∧
    ((tokenize_text cfg a).countP (fun w => cfg.positive_words.contains w) ≤
       (tokenize_text cfg a).length ∧
     (tokenize_text cfg a).countP (fun w => cfg.negative_words.contains w) ≤
       (tokenize_text cfg a).length) := by
  have hb : ∀ p : String → Bool,
      List.countP p (pySplit (pyLower b)) ≤ (pySplit (pyLower b)).length :=
    fun p => List.countP_le_length p
  have ha : ∀ p : String → Bool,
      List.countP p (tokenize_text cfg a) ≤ (tokenize_text cfg a).length :=
    fun p => List.countP_le_length p
  refine ⟨⟨?_, ?_, ?_, ?_, ?_, ?_⟩, ⟨?_, ?_, ?_, ?_, ?_, ?_⟩, ha _, ha _⟩ <;>
    first
      | (simp only [sa2_analyze_sentiment]; exact hb _)
      | exact Int.natCast_nonneg _

/-! Claim C8. -/

/-- C8: scoring is case-insensitive by construction: both scorers lowercase
the document before tokenizing and counting, so any two inputs that agree
after lowercasing produce identical results, whatever the lexicon holds. -/
theorem score_case_insensitive (cfg : Config) (lex : SA2Lexicon) (a b : String)
    (h : pyLower a = pyLower b) :
    analyze_sentiment cfg a = analyze_sentiment cfg b ∧
    sa2_analyze_sentiment lex a = sa2_analyze_sentiment lex b := by
  constructor
  · unfold analyze_sentiment tokenize_text
    rw [h]
  · unfold sa2_analyze_sentiment
    rw [h]

/-- C8 witness: `"Good BAD"` and `"good bad"` agree after lowercasing, so
they score identically against the lowercase lexicon
`positive={"good"}, negative={"bad"}` in both variants. -/
theorem score_case_insensitive_witness :
    analyze_sentiment cfg0 "Good BAD" = analyze_sentiment cfg0 "good bad" ∧
    sa2_analyze_sentiment ⟨["good"], ["bad"], [], [], [], []⟩ "Good BAD" =
      sa2_analyze_sentiment ⟨["good"], ["bad"], [], [], [], []⟩ "good bad" :=
  score_case_insensitive cfg0 ⟨["good"], ["bad"], [], [], [], []⟩
    "Good BAD" "good bad" (by decide)

/-! Claim C9. -/

theorem dr_loop_snd (zips : List String) :
    ∀ acc : DirState × List (String × DRScore),
      (zips.foldl
        (fun acc z =>
          if pyEndsWith (pyLower z) ".zip" then dr_process_zip z acc.1 acc.2 else acc)
        acc).2 = acc.2 := by
  induction zips with
  | nil => intro acc; rfl
  | cons z zs ih =>
      intro acc
      rw [List.foldl_cons, ih]
      split <;> rfl

/-- C9: the directory-read `process_zip` extracts into a directory it then
removes before returning (the extraction path is not on disk afterwards),
scores nothing, and returns the score dictionary exactly as received;
consequently the run's final score dictionary is empty and the report loop
iterates over nothing, for every list of zip files. -/
theorem dr_process_zip_frame (z : String) (st : DirState)
    (scores : List (String × DRScore)) (zips : List String) :
    (dr_process_zip z st scores).2 = scores ∧
    z ∉ ((dr_process_zip z st scores).1).temp_dirs ∧
    (dr_main zips st).2 = [] ∧
    dr_report (dr_main zips st).2 = [] := by
  refine ⟨rfl, ?_, ?_, ?_⟩
  · simp [dr_process_zip]
  · exact dr_loop_snd zips (st, [])
  · rw [show (dr_main zips st).2 = [] from dr_loop_snd zips (st, [])]
    rfl

/-! Claim C10. -/

/-- C10: in the `SA#2.py` per-file report, a document with no
negative-lexicon token makes the `positive_count / negative_count` print
raise `ZeroDivisionError` (the negative count is used raw), while the
weak count — had the report been reached — is coerced from `0` to `1`
before the strong-to-weak ratio. -/
theorem sa2_positive_ratio_divides_by_zero (lex : SA2Lexicon) (text : String)
    (hneg : (sa2_analyze_sentiment lex text).negative_cnt = 0) :
    sa2_report_file lex text = .error .zeroDivisionError ∧
    sa2_weak_for_ratio 0 = 1 := by
  refine ⟨?_, rfl⟩
  simp [sa2_report_file, hneg]

/-- C10 witness: against a lexicon with no negative entries, the document
`"hello good"` has negative count `0` and its report raises
`ZeroDivisionError`. -/
theorem sa2_positive_ratio_divides_by_zero_witness :
    sa2_report_file ⟨["good"], [], [], [], [], []⟩ "hello good" =
      .error .zeroDivisionError ∧
    sa2_weak_for_ratio 0 = 1 :=
  sa2_positive_ratio_divides_by_zero ⟨["good"], [], [], [], [], []⟩ "hello good"
    (by decide)

end SentimentAnalyzer
